import Mathlib

/-!
Verification of the websocket event-broadcast adapter
(`beacon_node/websocket_server/src/lib.rs`).

Shallow embedding conventions:
- `std::net::Ipv4Addr` is modelled as four octets (`Nat`, reduced mod 256 on
  construction, matching the `u8` arguments of `Ipv4Addr::new`), with its
  `Display` form (dotted decimal) as `Ipv4Addr.display`.
- The external `ws` crate is modelled by its observable interface: a
  `Sender` is the behaviour of `ws::Sender::send` (a response per string),
  a `Server` carries the broadcaster returned by `broadcaster()` and the
  behaviour of `listen`, and a `WsEnv` carries the outcome of
  `WebSocket::new`.  Note, visible in the source: the address string is
  passed only to `listen` (inside the spawned thread), never to
  `WebSocket::new`, so the outcome of `WebSocket::new` cannot depend on
  whether the configured address is already bound.
- Rust `{:?}` renderings of external error types are modelled as an
  abstract `debugRepr` string carried by the error value.
- Logging (`slog`) is modelled as lists of structured entries; the entries
  emitted synchronously before `start_server` returns are kept separate
  from those the spawned background thread emits.
- The `T: EthSpec` parameter is a phantom (`PhantomData`) with no runtime
  content and is dropped from the embedding.
-/

/-- One octet per field; `Ipv4Addr::new` takes `u8` arguments, modelled by
reducing mod 256. -/
structure Ipv4Addr where
  a : Nat
  b : Nat
  c : Nat
  d : Nat
deriving DecidableEq

def Ipv4Addr.new (a b c d : Nat) : Ipv4Addr :=
  ⟨a % 256, b % 256, c % 256, d % 256⟩

/-- The `Display` form of `Ipv4Addr`: dotted decimal. -/
def Ipv4Addr.display (ip : Ipv4Addr) : String :=
  Nat.repr ip.a ++ "." ++ Nat.repr ip.b ++ "." ++ Nat.repr ip.c ++ "." ++ Nat.repr ip.d

/-- `Config` from the source: enabled flag, listen address, port (`u16`,
modelled as `Nat`; every port the source constructs is below 2^16). -/
structure Config where
  enabled : Bool
  listen_address : Ipv4Addr
  port : Nat
deriving DecidableEq

/-- `impl Default for Config`. -/
def Config.default : Config :=
  { enabled := true
    listen_address := Ipv4Addr.new 127 0 0 1
    port := 5053 }

/-- Abstract `ws::Error`; `debugRepr` stands for its `{:?}` rendering. -/
structure WsError where
  debugRepr : String
deriving DecidableEq

/-- Abstract `serde_json::Error`; `debugRepr` stands for its `{:?}` rendering. -/
structure SerdeError where
  debugRepr : String
deriving DecidableEq

/-- A `ws::Sender` (broadcaster handle), modelled by the behaviour of its
`send` method: the response of the underlying broadcast mechanism to each
string. -/
structure Sender where
  send : String → Except WsError Unit

/-- `WebSocketSender` from the source: wraps zero or one broadcaster. -/
structure WebSocketSender where
  sender : Option Sender

/-- `WebSocketSender::dummy`. -/
def WebSocketSender.dummy : WebSocketSender :=
  { sender := none }

/-- Outcome of a send-level operation: the returned `Result`, and the list
of strings that were forwarded to the broadcaster (`sender.send` calls)
during the operation. -/
structure SendOutcome where
  result : Except String Unit
  forwarded : List String

/-- `WebSocketSender::send_string`. -/
def WebSocketSender.send_string (ws : WebSocketSender) (string : String) : SendOutcome :=
  match ws.sender with
  | some sender =>
      { result :=
          match sender.send string with
          | .ok _ => .ok ()
          | .error e => .error ("Unable to broadcast to websocket clients: " ++ e.debugRepr)
        forwarded := [string] }
  | none => { result := .ok (), forwarded := [] }

/-- Modelled from the spec: `EventKind` is defined in the host system
(`beacon_chain`), outside this fragment, and is serialized with
`serde_json::to_string`.  The spec requires only that an event is
"serializable to a text format" and that registration "fails with a
serialization error if the event cannot be represented in the chosen text
format"; accordingly an event is modelled by the outcome of its JSON
serialization. -/
structure EventKind where
  serialized : Except SerdeError String

/-- `EventHandler::register` for `WebSocketSender`: serialize the event,
propagate a serialization failure, otherwise forward the JSON text via
`send_string`. -/
def WebSocketSender.register (ws : WebSocketSender) (kind : EventKind) : SendOutcome :=
  match kind.serialized with
  | .error e => { result := .error ("Unable to serialize event: " ++ e.debugRepr), forwarded := [] }
  | .ok s => ws.send_string s

inductive LogLevel
  | info
  | error
deriving DecidableEq

/-- One structured `slog` record: level, message, key-value pairs. -/
structure LogEntry where
  level : LogLevel
  msg : String
  kv : List (String × String)
deriving DecidableEq

/-- A constructed `ws::WebSocket` as `start_server` uses it: the
broadcaster obtained from `broadcaster()`, and the behaviour of `listen`
as a function of the address string it is given. -/
structure Server where
  broadcaster : Sender
  listen : String → Except WsError Unit

/-- The external outcomes `start_server` consumes: the result of
`WebSocket::new(|_| |_| Ok(()))`.  The closure passed to `WebSocket::new`
ignores the connection and the message, so the handler contributes nothing;
the address string is not an input here because the source only passes it
to `listen`. -/
structure WsEnv where
  newServer : Except WsError Server

/-- Everything observable about one `start_server` call: the returned
`Result`, the log entries emitted synchronously before it returns, and the
log entries the spawned background thread eventually emits (empty when no
thread is spawned). -/
structure StartOutcome where
  result : Except String WebSocketSender
  syncLog : List LogEntry
  threadLog : List LogEntry

/-- The local `server_string` of `start_server`: `format!("{}:{}", ...)`. -/
def server_string (config : Config) : String :=
  Ipv4Addr.display config.listen_address ++ ":" ++ Nat.repr config.port

/-- The `info!` record emitted at the top of `start_server`. -/
def startingEntry (config : Config) : LogEntry :=
  { level := .info
    msg := "Websocket server starting"
    kv := [("listen_address", server_string config)] }

/-- The `info!` record the background thread emits when `listen` returns `Ok`. -/
def stoppedEntry : LogEntry :=
  { level := .info, msg := "Websocket server stopped", kv := [] }

/-- The `error!` record the background thread emits when `listen` returns `Err`. -/
def failedEntry (e : WsError) : LogEntry :=
  { level := .error
    msg := "Websocket server failed to start"
    kv := [("error", e.debugRepr)] }

/-- `start_server`: log the startup line, construct the websocket
(propagating a construction failure as an initialization error), spawn the
listener thread (whose outcome is only logged), and return the sender
holding the broadcaster. -/
def start_server (config : Config) (env : WsEnv) : StartOutcome :=
  match env.newServer with
  | .error e =>
      { result := .error ("Failed to initialize websocket server: " ++ e.debugRepr)
        syncLog := [startingEntry config]
        threadLog := [] }
  | .ok server =>
      { result := .ok { sender := some server.broadcaster }
        syncLog := [startingEntry config]
        threadLog :=
          match server.listen (server_string config) with
          | .ok _ => [stoppedEntry]
          | .error e => [failedEntry e] }

/-- Whether an `Except` is a success, uniformly over the error type. -/
def exceptIsOk : Except ε α → Bool
  | .ok _ => true
  | .error _ => false

/-- A handle is live when its broadcaster reference is present. -/
def WebSocketSender.isLive (ws : WebSocketSender) : Bool :=
  ws.sender.isSome

/-- One host-facing operation on a handle. -/
inductive HandleOp
  | sendOp (s : String)
  | registerOp (k : EventKind)

/-- Run one operation.  Both methods take `&self` (a shared, immutable
borrow) in the source, so the handle value after the call is the handle
value before it. -/
def stepOp (ws : WebSocketSender) : HandleOp → WebSocketSender × SendOutcome
  | .sendOp s => (ws, ws.send_string s)
  | .registerOp k => (ws, ws.register k)

/-- Run a sequence of operations, threading the handle. -/
def runOps (ws : WebSocketSender) : List HandleOp → WebSocketSender × List SendOutcome
  | [] => (ws, [])
  | op :: rest =>
      let st := stepOp ws op
      let r := runOps st.1 rest
      (r.1, st.2 :: r.2)

/-- Is a log entry the informational startup line? -/
def isStartupLine (e : LogEntry) : Bool :=
  e.level == .info && e.msg == "Websocket server starting"

/-- A broadcaster that accepts every string. -/
def okSender : Sender :=
  ⟨fun _ => .ok ()⟩

/-- A `ws` error as produced when the configured address is already bound:
`listen` fails with an address-in-use I/O error. -/
def addrInUseError : WsError :=
  ⟨"Io(Custom, kind: AddrInUse, error: address already in use)"⟩

/-- A constructed websocket whose `listen` call fails because the address
is already bound by another listener. -/
def boundServer : Server :=
  ⟨okSender, fun _ => .error addrInUseError⟩

/-- Environment for the already-bound scenario: `WebSocket::new` succeeds
(it is not given the address), `listen` then fails with address-in-use. -/
def boundEnv : WsEnv :=
  ⟨.ok boundServer⟩

/-- An event whose JSON serialization fails. -/
def badEvent : EventKind :=
  ⟨.error ⟨"map key must be a string"⟩⟩

theorem stepOp_fst (ws : WebSocketSender) (op : HandleOp) : (stepOp ws op).1 = ws := by
  cases op <;> rfl

/-- Claim C1 (counterexample): with the configured address:port already
bound by another listener, `WebSocket::new` still succeeds (it is never
given the address) while `listen` fails with address-in-use on the
background thread; `start_server` on the default config nevertheless
returns a live handle, and the bind failure appears only in the
background-thread log — contradicting the claim that an already-bound
address:port yields an initialization error and no handle. -/
theorem C1_counterexample :
    (start_server Config.default boundEnv).result = .ok ⟨some okSender⟩ ∧
    exceptIsOk (start_server Config.default boundEnv).result = true ∧
    (start_server Config.default boundEnv).threadLog = [failedEntry addrInUseError] :=
  ⟨rfl, rfl, rfl⟩

/-- Claim C1 (amended): `start_server` returns an initialization error (and
no handle) exactly when the `WebSocket::new` construction fails; an
already-bound address:port is instead a `listen` failure on the background
thread, and every failure after the thread starts is only logged, never
returned. -/
theorem C1_initialization_error (config : Config) (env : WsEnv) :
    exceptIsOk (start_server config env).result = exceptIsOk env.newServer ∧
    (∀ e : WsError, env.newServer = .error e →
      (start_server config env).result
        = .error ("Failed to initialize websocket server: " ++ e.debugRepr)) ∧
    ∀ srv : Server, env.newServer = .ok srv →
      (start_server config env).result = .ok ⟨some srv.broadcaster⟩ ∧
      ∀ e : WsError, srv.listen (server_string config) = .error e →
        (start_server config env).threadLog = [failedEntry e] := by
  obtain ⟨ns⟩ := env
  cases ns with
  | error e =>
      refine ⟨rfl, ?_, ?_⟩
      · intro e2 h
        injection h with h
        subst h
        rfl
      · intro srv h
        exact Except.noConfusion h
  | ok srv =>
      refine ⟨rfl, ?_, ?_⟩
      · intro e h
        exact Except.noConfusion h
      · intro srv2 h
        injection h with h
        subst h
        refine ⟨rfl, ?_⟩
        intro e hl
        simp [start_server, hl]

theorem C1_witness :
    (start_server Config.default ⟨.error ⟨"boom"⟩⟩).result
      = .error ("Failed to initialize websocket server: " ++ "boom") ∧
    (start_server Config.default boundEnv).threadLog = [failedEntry addrInUseError] :=
  ⟨(C1_initialization_error Config.default ⟨.error ⟨"boom"⟩⟩).2.1 ⟨"boom"⟩ rfl,
   ((C1_initialization_error Config.default boundEnv).2.2 boundServer rfl).2
     addrInUseError rfl⟩

/-- Claim C2 (counterexample): on a dummy handle, `register` with an event
whose serialization fails returns a serialization error, not success — the
serialization step runs before the dummy check. -/
theorem C2_counterexample :
    (WebSocketSender.dummy.register badEvent).result
      = .error ("Unable to serialize event: " ++ "map key must be a string") :=
  rfl

/-- Claim C2 (amended): for a dummy handle, `send_string` returns success
for every string, and `register` returns success for every serializable
event; neither forwards anything to a broadcaster (no observable side
effect), and even a failing `register` forwards nothing. -/
theorem C2_dummy_noop :
    (∀ s : String, WebSocketSender.dummy.send_string s = ⟨.ok (), []⟩) ∧
    (∀ (k : EventKind) (s : String), k.serialized = .ok s →
      WebSocketSender.dummy.register k = ⟨.ok (), []⟩) ∧
    ∀ (k : EventKind) (err : SerdeError), k.serialized = .error err →
      (WebSocketSender.dummy.register k).forwarded = [] := by
  refine ⟨fun s => rfl, fun k s h => ?_, fun k err h => ?_⟩
  · simp [WebSocketSender.register, h, WebSocketSender.send_string, WebSocketSender.dummy]
  · simp [WebSocketSender.register, h]

theorem C2_witness :
    WebSocketSender.dummy.register ⟨.ok "x"⟩ = ⟨.ok (), []⟩ ∧
    (WebSocketSender.dummy.register badEvent).forwarded = [] :=
  ⟨C2_dummy_noop.2.1 ⟨.ok "x"⟩ "x" rfl,
   C2_dummy_noop.2.2 badEvent ⟨"map key must be a string"⟩ rfl⟩

/-- Claim C3: for every handle and every serializable event, `register` is
equivalent to `send_string` of the JSON serialization — same outcome, and
every text forwarded to the broadcaster equals the serialization. -/
theorem C3_register_equiv_send (ws : WebSocketSender) (kind : EventKind) (s : String)
    (h : kind.serialized = .ok s) :
    ws.register kind = ws.send_string s ∧
    ∀ t ∈ (ws.register kind).forwarded, t = s := by
  have hreg : ws.register kind = ws.send_string s := by
    simp [WebSocketSender.register, h]
  refine ⟨hreg, fun t ht => ?_⟩
  rw [hreg] at ht
  cases hsnd : ws.sender with
  | none => simp [WebSocketSender.send_string, hsnd] at ht
  | some snd =>
      simp [WebSocketSender.send_string, hsnd] at ht
      exact ht

theorem C3_witness :
    (WebSocketSender.mk (some okSender)).register ⟨.ok "ev"⟩
      = (WebSocketSender.mk (some okSender)).send_string "ev" :=
  (C3_register_equiv_send ⟨some okSender⟩ ⟨.ok "ev"⟩ "ev" rfl).1

/-- Claim C4: for every event whose JSON serialization fails, `register`
returns a serialization error with nothing forwarded, and its outcome is
independent of the handle — the broadcaster is never reached. -/
theorem C4_serialization_failure (ws : WebSocketSender) (kind : EventKind) (err : SerdeError)
    (h : kind.serialized = .error err) :
    ws.register kind
      = ⟨.error ("Unable to serialize event: " ++ err.debugRepr), []⟩ ∧
    ∀ ws2 : WebSocketSender, ws.register kind = ws2.register kind := by
  have hr : ∀ w : WebSocketSender, w.register kind
      = ⟨.error ("Unable to serialize event: " ++ err.debugRepr), []⟩ := by
    intro w
    simp [WebSocketSender.register, h]
  exact ⟨hr ws, fun ws2 => (hr ws).trans (hr ws2).symm⟩

theorem C4_witness :
    (WebSocketSender.mk (some okSender)).register badEvent
      = ⟨.error ("Unable to serialize event: " ++ "map key must be a string"), []⟩ :=
  (C4_serialization_failure ⟨some okSender⟩ badEvent ⟨"map key must be a string"⟩ rfl).1

/-- Claim C5: on a live handle, `send_string` forwards exactly the given
string to the broadcaster, succeeds when the broadcaster accepts it, and
returns a delivery error exactly when the broadcast mechanism reports an
error. -/
theorem C5_send_live (snd : Sender) (s : String) :
    (WebSocketSender.mk (some snd)).send_string s
      = ⟨match snd.send s with
         | .ok _ => .ok ()
         | .error e => .error ("Unable to broadcast to websocket clients: " ++ e.debugRepr),
         [s]⟩ ∧
    exceptIsOk ((WebSocketSender.mk (some snd)).send_string s).result
      = exceptIsOk (snd.send s) := by
  constructor
  · rfl
  · cases hs : snd.send s <;> simp [WebSocketSender.send_string, exceptIsOk, hs]

/-- Claim C6: whenever `start_server` succeeds it returns the handle
holding the broadcaster reference (live, not dummy), and across the
synchronous and background-thread logs exactly one informational startup
line is emitted, carrying the address:port string. -/
theorem C6_start_success (config : Config) (srv : Server) :
    (start_server config ⟨.ok srv⟩).result = .ok ⟨some srv.broadcaster⟩ ∧
    ((start_server config ⟨.ok srv⟩).syncLog
        ++ (start_server config ⟨.ok srv⟩).threadLog).filter isStartupLine
      = [startingEntry config] ∧
    (startingEntry config).level = .info ∧
    (startingEntry config).kv = [("listen_address", server_string config)] := by
  refine ⟨rfl, ?_, rfl, rfl⟩
  cases hl : srv.listen (server_string config) <;>
    simp [start_server, hl, isStartupLine, startingEntry, stoppedEntry, failedEntry]

/-- Claim C7: the default configuration has enabled set, listen address
127.0.0.1, and port 5053. -/
theorem C7_default_config :
    Config.default.enabled = true ∧
    Config.default.listen_address = Ipv4Addr.new 127 0 0 1 ∧
    Ipv4Addr.display Config.default.listen_address = "127.0.0.1" ∧
    Config.default.port = 5053 :=
  ⟨rfl, rfl, rfl, rfl⟩

/-- Claim C8: liveness is fixed at construction — running any sequence of
`send_string` and `register` operations leaves the handle, and hence its
liveness, unchanged (both methods take a shared, immutable borrow). -/
theorem C8_liveness_fixed (ws : WebSocketSender) (ops : List HandleOp) :
    (runOps ws ops).1 = ws ∧ (runOps ws ops).1.isLive = ws.isLive := by
  have h : ∀ (l : List HandleOp) (w : WebSocketSender), (runOps w l).1 = w := by
    intro l
    induction l with
    | nil => intro w; rfl
    | cons op rest ih =>
        intro w
        simp [runOps, ih, stepOp_fst]
  exact ⟨h ops ws, by rw [h ops ws]⟩

/-- Claim C9: `start_server` never reads the enabled flag — two configs
agreeing on listen address and port but differing on enabled produce
identical outcomes in every environment. -/
theorem C9_enabled_independent (e1 e2 : Bool) (addr : Ipv4Addr) (p : Nat) (env : WsEnv) :
    start_server ⟨e1, addr, p⟩ env = start_server ⟨e2, addr, p⟩ env := by
  obtain ⟨ns⟩ := env
  cases ns <;> rfl

/-- Claim C10: `start_server` emits the informational startup line with the
address:port string on every invocation — its synchronous log is the
startup entry alone in all cases, in particular also when the websocket
construction fails and an initialization error is returned. -/
theorem C10_startup_log_unconditional (config : Config) (env : WsEnv) :
    (start_server config env).syncLog = [startingEntry config] ∧
    (startingEntry config).kv = [("listen_address", server_string config)] ∧
    ∀ e : WsError, exceptIsOk (start_server config ⟨.error e⟩).result = false := by
  refine ⟨?_, rfl, fun e => rfl⟩
  obtain ⟨ns⟩ := env
  cases ns <;> rfl
